import Mathlib

/-!
Shallow embedding of the `xwiimote` Rust crate (canonical modules
`src/lib.rs`, `src/event.rs`, `src/io_blocker.rs`) together with proofs
about its reactor, decoder, event stream, monitor stream and device
connection logic.

Conventions of the embedding:
* C `u32`/`u64` fields are `Nat` with explicit `% 2^w` where wrap matters;
  `i32` fields are `Int`.
* Rust `Result<T>` (`io::Result`) is `RResult T`; every error the crate
  produces comes from `io::Error::last_os_error()` after a failed kernel
  or library call, so the error type carries an OS errno.
* A Rust panic (`panic!`, `todo!`, `expect`) is modelled as `Option.none`
  (for pure functions) or a dedicated `panicked` outcome (for the stream
  state machines): a panic aborts, it never produces a value or an `Err`.
* The kernel epoll facility and the xwiimote C library are external
  collaborators; they are modelled at the exact interface the Rust code
  uses (a registration table keyed by file descriptor, and result-code
  returning calls whose outcomes are supplied as explicit parameters).
-/

-- ## OS error model

/-- Linux errno for "File exists", returned by `epoll_ctl(EPOLL_CTL_ADD)`
on an already-registered descriptor. -/
def EEXIST : Nat := 17

/-- Linux errno for "No such file or directory", returned by
`epoll_ctl(EPOLL_CTL_DEL)` on a descriptor that is not registered. -/
def ENOENT : Nat := 2

/-- An `io::Error`. Every error value created by this crate is obtained
from `io::Error::last_os_error()` (via the `bail_if!` macro in
`src/lib.rs`), i.e. it wraps the errno of a failed OS or library call. -/
inductive IoErr where
  | fromOs (errno : Nat)
deriving DecidableEq, Repr

/-- Rust's `Result<T, io::Error>` (the crate-wide `Result<T>` alias). -/
inductive RResult (α : Type) where
  | ok (value : α)
  | error (e : IoErr)
deriving DecidableEq, Repr

-- ## epoll event-mask constants (`libc`)

def EPOLLIN : Nat := 0x001
def EPOLLPRI : Nat := 0x002
def EPOLLHUP : Nat := 0x010

-- ## Association-list helpers (the `HashMap<RawFd, Waker>` of `IoBlocker`)

/-- Wakers are identified by an opaque id. -/
abbrev WakerId := Nat

def lookupFd (m : List (Nat × WakerId)) (fd : Nat) : Option WakerId :=
  (m.find? fun p => p.1 == fd).map (·.2)

def eraseFd (m : List (Nat × WakerId)) (fd : Nat) : List (Nat × WakerId) :=
  m.filter fun p => p.1 != fd

-- ## Reactor (`IoBlocker`, src/io_blocker.rs)

/-- The process-wide reactor state: the kernel epoll registration table
(the set of descriptors added via `epoll_ctl`) together with the
`wakers: Mutex<HashMap<RawFd, Waker>>` map of `IoBlocker`. -/
structure Reactor where
  registered : List Nat
  wakers : List (Nat × WakerId)
deriving DecidableEq, Repr

/-- Kernel model: `epoll_ctl(ep_fd, EPOLL_CTL_ADD, fd, ..)`. The kernel
keys registrations by descriptor and fails with `EEXIST` when the
descriptor is already registered. -/
def epollCtlAdd (r : Reactor) (fd : Nat) : RResult Reactor :=
  if fd ∈ r.registered then .error (.fromOs EEXIST)
  else .ok { r with registered := fd :: r.registered }

/-- Kernel model: `epoll_ctl(ep_fd, EPOLL_CTL_DEL, fd, ..)`. Fails with
`ENOENT` when the descriptor is not registered. -/
def epollCtlDel (r : Reactor) (fd : Nat) : RResult Reactor :=
  if fd ∈ r.registered then .ok { r with registered := r.registered.erase fd }
  else .error (.fromOs ENOENT)

namespace IoBlocker

/-- Model of `IoBlocker::add_interest` = `ctl_interest(EPOLL_CTL_ADD, fd, events)`.
The `events` mask (with `EPOLLET` or-ed in) is part of the registration
but does not affect the per-descriptor keying of the kernel table. -/
def addInterest (r : Reactor) (fd events : Nat) : RResult Unit × Reactor :=
  let _ := events
  match epollCtlAdd r fd with
  | .ok r' => (.ok (), r')
  | .error e => (.error e, r)

/-- Model of `IoBlocker::remove_interest`: first `ctl_interest(EPOLL_CTL_DEL, ..)`
(the `?` propagates its failure before the waker map is touched), then
remove and wake the pending waker, if set. The third component lists the
wakers woken during the call, in order. -/
def removeInterest (r : Reactor) (fd events : Nat) :
    RResult Unit × Reactor × List WakerId :=
  let _ := events
  match epollCtlDel r fd with
  | .error e => (.error e, r, [])
  | .ok r1 =>
      match lookupFd r1.wakers fd with
      | some w => (.ok (), { r1 with wakers := eraseFd r1.wakers fd }, [w])
      | none => (.ok (), r1, [])

/-- Model of `IoBlocker::set_callback`, i.e.
`self.wakers.lock().unwrap().insert(fd, waker)`.
`HashMap::insert` replaces any previous binding for the key and the call
returns no `Result` at all. -/
def setCallback (r : Reactor) (fd : Nat) (w : WakerId) : Reactor :=
  { r with wakers := (fd, w) :: eraseFd r.wakers fd }

end IoBlocker

-- ## Event type tags (`xwii_event_types`, external C library header)
-- Sequential enum values of the bundled `xwiimote` C library; the Rust
-- code matches on these bindgen-generated constants in `Event::parse`.

def EVENT_KEY : Nat := 0
def EVENT_ACCEL : Nat := 1
def EVENT_IR : Nat := 2
def EVENT_BALANCE_BOARD : Nat := 3
def EVENT_MOTION_PLUS : Nat := 4
def EVENT_PRO_CONTROLLER_KEY : Nat := 5
def EVENT_PRO_CONTROLLER_MOVE : Nat := 6
def EVENT_WATCH : Nat := 7
def EVENT_CLASSIC_CONTROLLER_KEY : Nat := 8
def EVENT_CLASSIC_CONTROLLER_MOVE : Nat := 9
def EVENT_NUNCHUK_KEY : Nat := 10
def EVENT_NUNCHUK_MOVE : Nat := 11
def EVENT_DRUMS_KEY : Nat := 12
def EVENT_DRUMS_MOVE : Nat := 13
def EVENT_GUITAR_KEY : Nat := 14
def EVENT_GUITAR_MOVE : Nat := 15
def EVENT_GONE : Nat := 16

-- ## Key enumerations (src/event.rs, expanded from the `key_enum!`,
-- `regular_controller_key_enum!` and `gamepad_key_enum!` macros)

/-- The keys of a Wii Remote (`Key`): `Left=0 .. Home=8, One=9, Two=10`,
plus the common `Plus=6`/`Minus=7` added by `key_enum!`. -/
inductive Key where
  | left | right | up | down | a | b | plus | minus | home | one | two
deriving DecidableEq, Repr

/-- Discriminant values of `Key` as declared in the source. -/
def Key.code : Key → Nat
  | .left => 0 | .right => 1 | .up => 2 | .down => 3 | .a => 4 | .b => 5
  | .plus => 6 | .minus => 7 | .home => 8 | .one => 9 | .two => 10

/-- The `Key::from_u32` decoder from the derived `FromPrimitive`: maps a numeric
code to the variant with that discriminant, `None` otherwise. -/
def Key.fromU32 : Nat → Option Key
  | 0 => some .left | 1 => some .right | 2 => some .up | 3 => some .down
  | 4 => some .a | 5 => some .b | 6 => some .plus | 7 => some .minus
  | 8 => some .home | 9 => some .one | 10 => some .two
  | _ => none

/-- The keys of a Wii U Pro controller (`ProControllerKey`). -/
inductive ProControllerKey where
  | left | right | up | down | a | b | plus | minus | home
  | x | y | tl | tr | zl | zr | leftThumb | rightThumb
deriving DecidableEq, Repr

def ProControllerKey.code : ProControllerKey → Nat
  | .left => 0 | .right => 1 | .up => 2 | .down => 3 | .a => 4 | .b => 5
  | .plus => 6 | .minus => 7 | .home => 8
  | .x => 11 | .y => 12 | .tl => 13 | .tr => 14 | .zl => 15 | .zr => 16
  | .leftThumb => 17 | .rightThumb => 18

def ProControllerKey.fromU32 : Nat → Option ProControllerKey
  | 0 => some .left | 1 => some .right | 2 => some .up | 3 => some .down
  | 4 => some .a | 5 => some .b | 6 => some .plus | 7 => some .minus
  | 8 => some .home | 11 => some .x | 12 => some .y | 13 => some .tl
  | 14 => some .tr | 15 => some .zl | 16 => some .zr
  | 17 => some .leftThumb | 18 => some .rightThumb
  | _ => none

/-- The keys of a Classic controller (`ClassicControllerKey`). -/
inductive ClassicControllerKey where
  | left | right | up | down | a | b | plus | minus | home
  | x | y | tl | tr | zl | zr
deriving DecidableEq, Repr

def ClassicControllerKey.code : ClassicControllerKey → Nat
  | .left => 0 | .right => 1 | .up => 2 | .down => 3 | .a => 4 | .b => 5
  | .plus => 6 | .minus => 7 | .home => 8
  | .x => 11 | .y => 12 | .tl => 13 | .tr => 14 | .zl => 15 | .zr => 16

def ClassicControllerKey.fromU32 : Nat → Option ClassicControllerKey
  | 0 => some .left | 1 => some .right | 2 => some .up | 3 => some .down
  | 4 => some .a | 5 => some .b | 6 => some .plus | 7 => some .minus
  | 8 => some .home | 11 => some .x | 12 => some .y | 13 => some .tl
  | 14 => some .tr | 15 => some .zl | 16 => some .zr
  | _ => none

/-- The keys of a Nunchuk (`NunchukKey`): `C=19`, `Z=20`. -/
inductive NunchukKey where
  | c | z
deriving DecidableEq, Repr

def NunchukKey.code : NunchukKey → Nat
  | .c => 19 | .z => 20

def NunchukKey.fromU32 : Nat → Option NunchukKey
  | 19 => some .c | 20 => some .z
  | _ => none

/-- The keys of a drums controller (`DrumsKey`): only the common
`Plus=6`/`Minus=7` from `key_enum!`. -/
inductive DrumsKey where
  | plus | minus
deriving DecidableEq, Repr

def DrumsKey.code : DrumsKey → Nat
  | .plus => 6 | .minus => 7

def DrumsKey.fromU32 : Nat → Option DrumsKey
  | 6 => some .plus | 7 => some .minus
  | _ => none

/-- The keys of a guitar controller (`GuitarKey`). `StrumBar` is declared
with discriminant 21 only (the source comment notes code 22 also exists,
but the derived `FromPrimitive` does not map it). -/
inductive GuitarKey where
  | plus | minus | starPower | strumBar
  | highestFretBar | highFretBar | midFretBar | lowFretBar | lowestFretBar
deriving DecidableEq, Repr

def GuitarKey.code : GuitarKey → Nat
  | .plus => 6 | .minus => 7 | .starPower => 8 | .strumBar => 21
  | .highestFretBar => 23 | .highFretBar => 24 | .midFretBar => 25
  | .lowFretBar => 26 | .lowestFretBar => 27

def GuitarKey.fromU32 : Nat → Option GuitarKey
  | 6 => some .plus | 7 => some .minus | 8 => some .starPower
  | 21 => some .strumBar | 23 => some .highestFretBar
  | 24 => some .highFretBar | 25 => some .midFretBar
  | 26 => some .lowFretBar | 27 => some .lowestFretBar
  | _ => none

/-- The state of a key (`KeyState`): `Up=0`, `Down=1`, `AutoRepeat=2`. -/
inductive KeyState where
  | up | down | autoRepeat
deriving DecidableEq, Repr

def KeyState.code : KeyState → Nat
  | .up => 0 | .down => 1 | .autoRepeat => 2

def KeyState.fromU32 : Nat → Option KeyState
  | 0 => some .up | 1 => some .down | 2 => some .autoRepeat
  | _ => none

-- ## Raw event records (`xwiimote_sys::event`)

/-- One slot of the `abs` array of the raw record
(`struct xwii_event_abs { int32_t x, y, z; }`). -/
structure AbsMotion where
  x : Int
  y : Int
  z : Int
deriving DecidableEq, Repr

/-- The fixed-layout raw record filled in by `iface_dispatch`
(`struct xwii_event`): a type tag, a timestamp, and a union of an
`abs[8]` array and a key `{code, state}` pair. The embedding carries
both union members; `Event::parse` reads only the member selected by
the tag. `tv_sec`/`tv_usec` are the non-negative timestamp fields. -/
structure RawEvent where
  type_ : Nat
  tv_sec : Nat
  tv_usec : Nat
  abs : Fin 8 → AbsMotion
  keyCode : Nat
  keyState : Nat

/-- The capture time
`SystemTime::UNIX_EPOCH + Duration::new(tv_sec as u64, tv_usec as u32 * 1000)`,
expressed in nanoseconds since the epoch. The `as u32` cast and the `u32`
multiplication wrap modulo `2^32`. -/
def eventTime (sec usec : Nat) : Nat :=
  sec * 1000000000 + (usec % 2 ^ 32) * 1000 % 2 ^ 32

/-- An IR source detected by the IR camera (`IrSource`). -/
structure IrSource where
  x : Int
  y : Int
deriving DecidableEq, Repr

/-- The sentinel coordinate meaning "no source at this tracking slot"
(`MISSING_SOURCE` in `IrSource::parse`). -/
def MISSING_SOURCE : Int := 1023

/-- One iteration of the loop in `IrSource::parse`: slot `ix` is written
with `Some` exactly when neither coordinate is the sentinel; otherwise it
keeps its `Default` value `None`. -/
def irSlot (raw : RawEvent) (ix : Fin 8) : Option IrSource :=
  let pos := raw.abs ix
  if pos.x ≠ MISSING_SOURCE ∧ pos.y ≠ MISSING_SOURCE then
    some { x := pos.x, y := pos.y }
  else
    none

/-- Model of `IrSource::parse`: the first `MAX_IR_SOURCES = 4` slots of the `abs`
array, each decoded independently by `irSlot`. -/
def IrSource.parse (raw : RawEvent) : List (Option IrSource) :=
  [irSlot raw 0, irSlot raw 1, irSlot raw 2, irSlot raw 3]

/-- The `EventKind` enumeration (src/event.rs). The fixed-size arrays of the source
(`[Option<IrSource>; 4]`, `[i32; 4]`) are length-4 lists here. -/
inductive EventKind where
  | key (k : Key) (s : KeyState)
  | accelerometer (x y z : Int)
  | ir (sources : List (Option IrSource))
  | balanceBoard (weights : List Int)
  | motionPlus (x y z : Int)
  | proControllerKey (k : ProControllerKey) (s : KeyState)
  | proControllerMove (left_x left_y right_x right_y : Int)
  | other
  | classicControllerKey (k : ClassicControllerKey) (s : KeyState)
  | classicControllerMove (left_x left_y right_x right_y : Int)
      (left_trigger right_trigger : Nat)
  | nunchukKey (k : NunchukKey) (s : KeyState)
  | nunchukMove (x y x_acceleration y_acceleration : Int)
  | drumsKey (k : DrumsKey) (s : KeyState)
  | drumsMove
  | guitarKey (k : GuitarKey) (s : KeyState)
  | guitarMove (x y whammy_bar fret_bar : Int)
deriving DecidableEq, Repr

/-- An `Event`: capture time plus tagged payload. -/
structure Event where
  time : Nat
  kind : EventKind
deriving DecidableEq, Repr

/-- Model of `Event::parse_key`, generic over the key enumeration's
`FromPrimitive` decoder: `none` models the `panic!("unknown key code ..")`
and `panic!("unknown key state ..")` aborts. -/
def parseKeyWith {K : Type} (fromCode : Nat → Option K) (raw : RawEvent) :
    Option (K × KeyState) :=
  match fromCode raw.keyCode with
  | none => none
  | some k =>
      match KeyState.fromU32 raw.keyState with
      | none => none
      | some s => some (k, s)

/-- Model of `Event::parse`: dispatch on the record's type tag. `none` models a
panic: the `todo!()` of `EVENT_DRUMS_MOVE`, the explicit panic on
`EVENT_GONE` (which `EventStream` intercepts before calling `parse`),
the catch-all `panic!("unexpected event type ..")` (which also covers
`EVENT_GUITAR_MOVE`, absent from the match), and the `parse_key` panics
on unknown codes or states. -/
def Event.parse (raw : RawEvent) : Option Event :=
  let time := eventTime raw.tv_sec raw.tv_usec
  let kind? : Option EventKind :=
    if raw.type_ = EVENT_KEY then
      (parseKeyWith Key.fromU32 raw).map fun p => .key p.1 p.2
    else if raw.type_ = EVENT_ACCEL then
      let acc := raw.abs 0
      some (.accelerometer acc.x acc.y acc.z)
    else if raw.type_ = EVENT_IR then
      some (.ir (IrSource.parse raw))
    else if raw.type_ = EVENT_BALANCE_BOARD then
      some (.balanceBoard
        [(raw.abs 0).x, (raw.abs 1).x, (raw.abs 2).x, (raw.abs 3).x])
    else if raw.type_ = EVENT_MOTION_PLUS then
      let rotSpeed := raw.abs 0
      some (.motionPlus rotSpeed.x rotSpeed.y rotSpeed.z)
    else if raw.type_ = EVENT_PRO_CONTROLLER_KEY then
      (parseKeyWith ProControllerKey.fromU32 raw).map fun p =>
        .proControllerKey p.1 p.2
    else if raw.type_ = EVENT_PRO_CONTROLLER_MOVE then
      some (.proControllerMove (raw.abs 0).x (raw.abs 0).y
        (raw.abs 1).x (raw.abs 1).y)
    else if raw.type_ = EVENT_WATCH then
      some .other
    else if raw.type_ = EVENT_CLASSIC_CONTROLLER_KEY then
      (parseKeyWith ClassicControllerKey.fromU32 raw).map fun p =>
        .classicControllerKey p.1 p.2
    else if raw.type_ = EVENT_CLASSIC_CONTROLLER_MOVE then
      some (.classicControllerMove (raw.abs 0).x (raw.abs 0).y
        (raw.abs 1).x (raw.abs 1).y
        ((raw.abs 2).x % 256).toNat ((raw.abs 2).y % 256).toNat)
    else if raw.type_ = EVENT_NUNCHUK_KEY then
      (parseKeyWith NunchukKey.fromU32 raw).map fun p => .nunchukKey p.1 p.2
    else if raw.type_ = EVENT_NUNCHUK_MOVE then
      some (.nunchukMove (raw.abs 0).x (raw.abs 0).y
        (raw.abs 1).x (raw.abs 1).y)
    else if raw.type_ = EVENT_DRUMS_KEY then
      (parseKeyWith DrumsKey.fromU32 raw).map fun p => .drumsKey p.1 p.2
    else if raw.type_ = EVENT_DRUMS_MOVE then
      none
    else if raw.type_ = EVENT_GUITAR_KEY then
      (parseKeyWith GuitarKey.fromU32 raw).map fun p => .guitarKey p.1 p.2
    else
      none
  kind?.map fun kind => { time := time, kind := kind }

/-- The six key-kind record tags, i.e. the tags `Event::parse` decodes
through `Event::parse_key`. -/
def isKeyTag (t : Nat) : Prop :=
  t = EVENT_KEY ∨ t = EVENT_PRO_CONTROLLER_KEY ∨
    t = EVENT_CLASSIC_CONTROLLER_KEY ∨ t = EVENT_NUNCHUK_KEY ∨
    t = EVENT_DRUMS_KEY ∨ t = EVENT_GUITAR_KEY

/-- Whether a key code maps to the expected enumeration for tag `t`:
`T::from_u32(code).is_some()` for the type `T` that `Event::parse`
passes to `parse_key` when dispatching tag `t`. -/
def keyCodeMaps (t code : Nat) : Bool :=
  if t = EVENT_KEY then (Key.fromU32 code).isSome
  else if t = EVENT_PRO_CONTROLLER_KEY then
    (ProControllerKey.fromU32 code).isSome
  else if t = EVENT_CLASSIC_CONTROLLER_KEY then
    (ClassicControllerKey.fromU32 code).isSome
  else if t = EVENT_NUNCHUK_KEY then (NunchukKey.fromU32 code).isSome
  else if t = EVENT_DRUMS_KEY then (DrumsKey.fromU32 code).isSome
  else if t = EVENT_GUITAR_KEY then (GuitarKey.fromU32 code).isSome
  else true

-- ## Event stream (`EventStream`, src/event.rs)

/-- One outcome of `iface_dispatch` on the device handle: a filled-in raw
record (return code 0), `-EAGAIN` ("no data yet"), or another failure. -/
inductive DispatchResult where
  | ok (raw : RawEvent)
  | pending
  | fail (errno : Nat)

/-- The mutable state of an `EventStream`: the device descriptor
(`iface_get_fd(device.handle)`), the `have_interest` flag, and the number
of `iface_dispatch` calls issued so far (which indexes the device's
record sequence; the reused `last_event` buffer holds the record most
recently dispatched). -/
structure ESState where
  fd : Nat
  haveInterest : Bool
  count : Nat
deriving DecidableEq, Repr

/-- The mask `EventStream::EPOLL_EVENTS = EPOLLIN | EPOLLHUP | EPOLLPRI`. -/
def EventStream.EPOLL_EVENTS : Nat := EPOLLIN ||| EPOLLHUP ||| EPOLLPRI

/-- Model of `EventStream::try_new`: register read interest for the device fd,
start with `have_interest = true`; an `add_interest` failure is
propagated by `?`. -/
def esTryNew (r : Reactor) (fd : Nat) : RResult ESState × Reactor :=
  match IoBlocker.addInterest r fd EventStream.EPOLL_EVENTS with
  | (.ok _, r') => (.ok { fd := fd, haveInterest := true, count := 0 }, r')
  | (.error e, r') => (.error e, r')

/-- Result of `EventStream::remove_interest` together with the state it
leaves behind and the number of `epoll_ctl(EPOLL_CTL_DEL)` calls issued. -/
structure ESRemOut where
  result : RResult Unit
  state : ESState
  reactor : Reactor
  woken : List WakerId
  delCalls : Nat
deriving DecidableEq, Repr

/-- Model of `EventStream::remove_interest`: deregister only when `have_interest`
is set, clearing the flag first; otherwise return `Ok(())` without
touching the reactor. -/
def esRemoveInterest (s : ESState) (r : Reactor) : ESRemOut :=
  if s.haveInterest then
    let s' := { s with haveInterest := false }
    match IoBlocker.removeInterest r s.fd EventStream.EPOLL_EVENTS with
    | (.ok _, r', wk) => ⟨.ok (), s', r', wk, 1⟩
    | (.error e, _, _) => ⟨.error e, s', r, [], 1⟩
  else
    ⟨.ok (), s, r, [], 0⟩

/-- A `Poll<Option<Result<Event>>>` outcome of `poll_next`; `panicked`
models an abort inside the call (a decoder panic). -/
inductive ESPoll where
  | ready (item : Option (RResult Event))
  | pending
  | panicked
deriving DecidableEq, Repr

/-- Outcome of one `EventStream::poll_next` call: the poll result, the
state and reactor it leaves behind, and the number of `iface_dispatch`
calls issued against the device handle during the call. -/
structure ESPollOut where
  result : ESPoll
  state : ESState
  reactor : Reactor
  dispatches : Nat
deriving DecidableEq, Repr

/-- Model of `EventStream::poll_next` (`impl Stream for EventStream`). `dev`
gives the outcome of each successive `iface_dispatch` call; `w` is the
waker of the polling task (`cx.waker()`). -/
def esPollNext (dev : Nat → DispatchResult) (s : ESState) (r : Reactor)
    (w : WakerId) : ESPollOut :=
  if s.haveInterest = false then
    ⟨.ready none, s, r, 0⟩
  else
    match dev s.count with
    | .ok raw =>
        let s1 := { s with count := s.count + 1 }
        if raw.type_ = EVENT_GONE then
          let rem := esRemoveInterest s1 r
          match rem.result with
          | .ok _ => ⟨.ready none, rem.state, rem.reactor, 1⟩
          | .error e => ⟨.ready (some (.error e)), rem.state, rem.reactor, 1⟩
        else
          match Event.parse raw with
          | some ev => ⟨.ready (some (.ok ev)), s1, r, 1⟩
          | none => ⟨.panicked, s1, r, 1⟩
    | .pending =>
        ⟨.pending, { s with count := s.count + 1 },
          IoBlocker.setCallback r s.fd w, 1⟩
    | .fail errno =>
        ⟨.ready (some (.error (.fromOs errno))),
          { s with count := s.count + 1 }, r, 1⟩

/-- Model of `impl Drop for EventStream`: `remove_interest().expect(..)`. The
`none` outcome models the `expect` panic; the `Nat` counts the
`epoll_ctl(EPOLL_CTL_DEL)` calls issued. -/
def esDrop (s : ESState) (r : Reactor) : Option (ESState × Reactor) × Nat :=
  let rem := esRemoveInterest s r
  match rem.result with
  | .ok _ => (some (rem.state, rem.reactor), rem.delCalls)
  | .error _ => (none, rem.delCalls)

/-- A concrete removal-tagged raw record. -/
def goneRaw : RawEvent :=
  { type_ := EVENT_GONE, tv_sec := 0, tv_usec := 0,
    abs := fun _ => ⟨0, 0, 0⟩, keyCode := 0, keyState := 0 }

/-- A device whose every dispatch returns the removal-tagged record. -/
def goneDev : Nat → DispatchResult := fun _ => .ok goneRaw

/-- A concrete key-tagged record whose key code (100) maps to no `Key`
variant. -/
def badKeyRaw : RawEvent :=
  { type_ := EVENT_KEY, tv_sec := 0, tv_usec := 0,
    abs := fun _ => ⟨0, 0, 0⟩, keyCode := 100, keyState := 0 }

-- ## Monitor stream (`Monitor`, src/lib.rs)

/-- A device address (an opaque filesystem path), identified by an id. -/
abbrev Addr := Nat

/-- The mask `Monitor::HOTPLUG_EVENTS = EPOLLIN | EPOLLHUP | EPOLLPRI`. -/
def Monitor.HOTPLUG_EVENTS : Nat := EPOLLIN ||| EPOLLHUP ||| EPOLLPRI

/-- The mutable state of a `Monitor`: the optional monitor descriptor
(present exactly when `discover` was requested), the `enumerated` flag,
and the number of `monitor_poll` calls issued so far (which indexes the
discovery source's address sequence). -/
structure MonState where
  fd : Option Nat
  enumerated : Bool
  count : Nat
deriving DecidableEq, Repr

/-- Model of `Monitor::new(discover)` after a successful `monitor_new`: in
discover mode `monitor_get_fd` supplies the descriptor `fd`. -/
def monNew (discover : Bool) (fd : Nat) : MonState :=
  { fd := if discover then some fd else none, enumerated := false,
    count := 0 }

/-- A `Poll<Option<Result<Address>>>` outcome of `Monitor::poll_next`. -/
inductive MonPoll where
  | ready (item : Option (RResult Addr))
  | pending
deriving DecidableEq, Repr

/-- Outcome of one `Monitor::poll_next` call. -/
structure MonPollOut where
  result : MonPoll
  state : MonState
  reactor : Reactor
deriving DecidableEq, Repr

/-- The `self.enumerated` branch of `Monitor::poll_next`: without a
descriptor, enumeration is over for good; with one, a null
`monitor_poll` stores the waker and suspends, a non-null result yields
the address. -/
def monPollEnumerated (script : Nat → Option Addr) (s : MonState)
    (r : Reactor) (w : WakerId) : MonPollOut :=
  match s.fd with
  | none => ⟨.ready none, s, r⟩
  | some fd =>
      match script s.count with
      | none =>
          ⟨.pending, { s with count := s.count + 1 },
            IoBlocker.setCallback r fd w⟩
      | some a => ⟨.ready (some (.ok a)), { s with count := s.count + 1 }, r⟩

/-- Model of `Monitor::poll_next` (`impl Stream for Monitor`). `script` gives the
outcome of each successive `monitor_poll` call (null = `none`). When the
first null ends the initial enumeration, the source sets `enumerated`,
registers hot-plug interest if a descriptor is present (an `add_interest`
failure propagates through `?` as a `Ready(Some(Err))` item) and makes
the tail call `self.poll_next(cx)`; at that point `enumerated` is `true`,
so that call is exactly the enumerated branch, inlined here as
`monPollEnumerated`. -/
def monPollNext (script : Nat → Option Addr) (s : MonState) (r : Reactor)
    (w : WakerId) : MonPollOut :=
  if s.enumerated then
    monPollEnumerated script s r w
  else
    match script s.count with
    | some a => ⟨.ready (some (.ok a)), { s with count := s.count + 1 }, r⟩
    | none =>
        let s' := { s with enumerated := true, count := s.count + 1 }
        match s'.fd with
        | some fd =>
            match IoBlocker.addInterest r fd Monitor.HOTPLUG_EVENTS with
            | (.ok _, r') => monPollEnumerated script s' r' w
            | (.error e, r') => ⟨.ready (some (.error e)), s', r'⟩
        | none => ⟨.ready none, s', r⟩

/-- Model of `impl Drop for Monitor`: whenever `self.fd` is present (i.e. the
monitor was created in discover mode), call `remove_interest` and
`expect` it to succeed, then `monitor_unref`. `none` models the `expect`
panic; the `Nat` counts `epoll_ctl(EPOLL_CTL_DEL)` calls issued. -/
def monDrop (s : MonState) (r : Reactor) : Option Reactor × Nat :=
  match s.fd with
  | some fd =>
      match IoBlocker.removeInterest r fd Monitor.HOTPLUG_EVENTS with
      | (.ok _, r', _) => (some r', 1)
      | (.error _, _, _) => (none, 1)
  | none => (some r, 0)

/-- A discovery source that yields `A`, `B`, then null forever. -/
def enumScript (A B : Addr) : Nat → Option Addr := fun n =>
  if n = 0 then some A else if n = 1 then some B else none

/-- A discovery source that yields `A`, `B`, null, then the hot-plugged
`C`. -/
def discoverScript (A B C : Addr) : Nat → Option Addr := fun n =>
  if n = 0 then some A
  else if n = 1 then some B
  else if n = 2 then none
  else if n = 3 then some C
  else none

-- ## Device connection (`Device::connect`, src/lib.rs)

/-- Outcomes of the external xwiimote calls used by `Device::connect`:
the result code of `iface_new` and the handle it produces, the result
code of `iface_watch(handle, enabled)`, and the errno that
`io::Error::last_os_error()` observes after a failed call. -/
structure IfaceWorld where
  newCode : Nat
  handle : Nat
  watchCode : Nat → Bool → Nat
  osErr : Nat

/-- A connected `Device`: the native handle plus the
"core channel opened for writing" flag. -/
structure Device where
  handle : Nat
  core_open : Bool
deriving DecidableEq, Repr

/-- Model of `Device::connect`: `iface_new` (bailing on a non-zero code), then
`iface_watch(handle, true)` (bailing on a non-zero code), then the
`Device` with `core_open = false`. The second component is the trace of
`iface_watch` calls `(handle, enabled)` made during `connect`. -/
def Device.connect (wld : IfaceWorld) : RResult Device × List (Nat × Bool) :=
  if wld.newCode ≠ 0 then
    (.error (.fromOs wld.osErr), [])
  else if wld.watchCode wld.handle true ≠ 0 then
    (.error (.fromOs wld.osErr), [(wld.handle, true)])
  else
    (.ok { handle := wld.handle, core_open := false }, [(wld.handle, true)])

-- # Theorems

theorem lookupFd_eraseFd (m : List (Nat × WakerId)) (fd : Nat) :
    lookupFd (eraseFd m fd) fd = none := by
  induction m with
  | nil => rfl
  | cons p t ih =>
      by_cases h : p.1 = fd
      · simp [eraseFd, lookupFd, h]
      · simp [eraseFd, lookupFd, List.find?, h]

theorem countP_eraseFd (m : List (Nat × WakerId)) (fd : Nat) :
    (eraseFd m fd).countP (fun p => p.1 == fd) = 0 := by
  induction m with
  | nil => rfl
  | cons p t ih =>
      by_cases h : p.1 = fd
      · simp [eraseFd, h]
      · simp [eraseFd, List.countP_cons, h]

-- ## Claims C5, C6, C9 (reactor contract)

/-- C5 (counterexample): starting from an empty reactor, the second
`add_interest(4, m)` fails — but the error it returns is literally the
kernel `epoll_ctl(EPOLL_CTL_ADD)` failure (`EEXIST`), not an error
distinct from a kernel-call failure: `add_interest` performs no
registration bookkeeping of its own. -/
theorem add_interest_second_error_is_kernel_failure :
    (IoBlocker.addInterest ((IoBlocker.addInterest ⟨[], []⟩ 4 19).2) 4 19).1
        = .error (.fromOs EEXIST) ∧
      epollCtlAdd ((IoBlocker.addInterest ⟨[], []⟩ 4 19).2) 4
        = .error (.fromOs EEXIST) := by
  decide

/-- C5 (amended): for every descriptor `fd` not yet registered and mask
`m`, the first `add_interest(fd, m)` succeeds and a second call without
an intervening `remove_interest` fails — with the kernel-call failure
`EEXIST` from `epoll_ctl`, the only error channel the code has. -/
theorem add_interest_twice_fails (r : Reactor) (fd m : Nat)
    (h : fd ∉ r.registered) :
    (IoBlocker.addInterest r fd m).1 = .ok () ∧
      (IoBlocker.addInterest (IoBlocker.addInterest r fd m).2 fd m).1
        = .error (.fromOs EEXIST) := by
  constructor
  · simp [IoBlocker.addInterest, epollCtlAdd, h]
  · simp [IoBlocker.addInterest, epollCtlAdd, h]

theorem add_interest_twice_fails_witness :
    (5 : Nat) ∉ (Reactor.mk [] []).registered ∧
      ((IoBlocker.addInterest ⟨[], []⟩ 5 19).1 = .ok () ∧
        (IoBlocker.addInterest (IoBlocker.addInterest ⟨[], []⟩ 5 19).2 5 19).1
          = .error (.fromOs EEXIST)) :=
  ⟨by decide, add_interest_twice_fails ⟨[], []⟩ 5 19 (by decide)⟩

/-- C6: for every registered descriptor with a pending wake callback in
the reactor's map, `remove_interest` wakes exactly that callback, exactly
once, before returning `Ok`, and removes it from the map (so a later
readiness cycle or removal cannot invoke it again). -/
theorem remove_interest_wakes_pending_once (r : Reactor) (fd m w : Nat)
    (hreg : fd ∈ r.registered) (hw : lookupFd r.wakers fd = some w) :
    IoBlocker.removeInterest r fd m
        = (.ok (), { registered := r.registered.erase fd,
                     wakers := eraseFd r.wakers fd }, [w]) ∧
      lookupFd (IoBlocker.removeInterest r fd m).2.1.wakers fd = none := by
  have h1 : IoBlocker.removeInterest r fd m
      = (.ok (), { registered := r.registered.erase fd,
                   wakers := eraseFd r.wakers fd }, [w]) := by
    simp [IoBlocker.removeInterest, epollCtlDel, hreg, hw]
  refine ⟨h1, ?_⟩
  rw [h1]
  exact lookupFd_eraseFd r.wakers fd

theorem remove_interest_wakes_pending_once_witness :
    ((7 : Nat) ∈ (Reactor.mk [7] [(7, 42)]).registered ∧
        lookupFd (Reactor.mk [7] [(7, 42)]).wakers 7 = some 42) ∧
      (IoBlocker.removeInterest ⟨[7], [(7, 42)]⟩ 7 19
          = (.ok (), { registered := [], wakers := [] }, [42]) ∧
        lookupFd (IoBlocker.removeInterest ⟨[7], [(7, 42)]⟩ 7 19).2.1.wakers 7
          = none) :=
  ⟨⟨by decide, by decide⟩,
    by
      have h := remove_interest_wakes_pending_once ⟨[7], [(7, 42)]⟩ 7 19 42
        (by decide) (by decide)
      simpa [List.erase, eraseFd] using h⟩

/-- C9: `set_callback` stores exactly one callback for the descriptor;
a second `set_callback` for the same descriptor silently overwrites the
first pending callback (last writer wins) — the operation is total and
returns no error. -/
theorem set_callback_last_writer_wins (r : Reactor) (fd : Nat)
    (w0 w : WakerId) :
    lookupFd (IoBlocker.setCallback (IoBlocker.setCallback r fd w0) fd w).wakers
        fd = some w ∧
      ((IoBlocker.setCallback (IoBlocker.setCallback r fd w0) fd w).wakers.countP
          (fun p => p.1 == fd)) = 1 := by
  constructor
  · simp [IoBlocker.setCallback, lookupFd, List.find?]
  · simp [IoBlocker.setCallback, List.countP_cons, countP_eraseFd]

-- ## Claim C3 (decoder round-trip)

/-- The loop body of `IrSource::parse`, rephrased: a slot decodes to the
absent-value marker exactly when either coordinate is the sentinel. -/
theorem irSlot_sentinel (raw : RawEvent) (ix : Fin 8) :
    irSlot raw ix =
      if (raw.abs ix).x = MISSING_SOURCE ∨ (raw.abs ix).y = MISSING_SOURCE then
        none
      else
        some { x := (raw.abs ix).x, y := (raw.abs ix).y } := by
  by_cases hx : (raw.abs ix).x = MISSING_SOURCE <;>
    by_cases hy : (raw.abs ix).y = MISSING_SOURCE <;>
      simp [irSlot, hx, hy]

/-- C3: for every supported (decoded) record tag, a record constructed
with known field values decodes to an `Event` whose fields equal those
inputs. In particular an IR record's tracking slot `i` decodes to `none`
exactly when its `x` or `y` coordinate is the sentinel `1023`, to
`some` of exactly the input coordinates otherwise, and output slot `i`
is computed from input slot `i` alone. -/
theorem decoder_round_trip (sec usec c st : Nat) (a : Fin 8 → AbsMotion) :
    (∀ (k : Key) (s : KeyState),
        Event.parse { type_ := EVENT_KEY, tv_sec := sec, tv_usec := usec,
                      abs := a, keyCode := k.code, keyState := s.code }
          = some { time := eventTime sec usec, kind := .key k s }) ∧
    (Event.parse { type_ := EVENT_ACCEL, tv_sec := sec, tv_usec := usec,
                   abs := a, keyCode := c, keyState := st }
      = some { time := eventTime sec usec,
               kind := .accelerometer (a 0).x (a 0).y (a 0).z }) ∧
    (Event.parse { type_ := EVENT_IR, tv_sec := sec, tv_usec := usec,
                   abs := a, keyCode := c, keyState := st }
      = some { time := eventTime sec usec,
               kind := .ir
                 [if (a 0).x = 1023 ∨ (a 0).y = 1023 then none
                    else some { x := (a 0).x, y := (a 0).y },
                  if (a 1).x = 1023 ∨ (a 1).y = 1023 then none
                    else some { x := (a 1).x, y := (a 1).y },
                  if (a 2).x = 1023 ∨ (a 2).y = 1023 then none
                    else some { x := (a 2).x, y := (a 2).y },
                  if (a 3).x = 1023 ∨ (a 3).y = 1023 then none
                    else some { x := (a 3).x, y := (a 3).y }] }) ∧
    (Event.parse { type_ := EVENT_BALANCE_BOARD, tv_sec := sec,
                   tv_usec := usec, abs := a, keyCode := c, keyState := st }
      = some { time := eventTime sec usec,
               kind := .balanceBoard [(a 0).x, (a 1).x, (a 2).x, (a 3).x] }) ∧
    (Event.parse { type_ := EVENT_MOTION_PLUS, tv_sec := sec,
                   tv_usec := usec, abs := a, keyCode := c, keyState := st }
      = some { time := eventTime sec usec,
               kind := .motionPlus (a 0).x (a 0).y (a 0).z }) ∧
    (∀ (k : ProControllerKey) (s : KeyState),
        Event.parse { type_ := EVENT_PRO_CONTROLLER_KEY, tv_sec := sec,
                      tv_usec := usec, abs := a, keyCode := k.code,
                      keyState := s.code }
          = some { time := eventTime sec usec, kind := .proControllerKey k s }) ∧
    (Event.parse { type_ := EVENT_PRO_CONTROLLER_MOVE, tv_sec := sec,
                   tv_usec := usec, abs := a, keyCode := c, keyState := st }
      = some { time := eventTime sec usec,
               kind := .proControllerMove (a 0).x (a 0).y (a 1).x (a 1).y }) ∧
    (Event.parse { type_ := EVENT_WATCH, tv_sec := sec, tv_usec := usec,
                   abs := a, keyCode := c, keyState := st }
      = some { time := eventTime sec usec, kind := .other }) ∧
    (∀ (k : ClassicControllerKey) (s : KeyState),
        Event.parse { type_ := EVENT_CLASSIC_CONTROLLER_KEY, tv_sec := sec,
                      tv_usec := usec, abs := a, keyCode := k.code,
                      keyState := s.code }
          = some { time := eventTime sec usec,
                   kind := .classicControllerKey k s }) ∧
    (Event.parse { type_ := EVENT_CLASSIC_CONTROLLER_MOVE, tv_sec := sec,
                   tv_usec := usec, abs := a, keyCode := c, keyState := st }
      = some { time := eventTime sec usec,
               kind := .classicControllerMove (a 0).x (a 0).y (a 1).x (a 1).y
                 ((a 2).x % 256).toNat ((a 2).y % 256).toNat }) ∧
    (∀ (k : NunchukKey) (s : KeyState),
        Event.parse { type_ := EVENT_NUNCHUK_KEY, tv_sec := sec,
                      tv_usec := usec, abs := a, keyCode := k.code,
                      keyState := s.code }
          = some { time := eventTime sec usec, kind := .nunchukKey k s }) ∧
    (Event.parse { type_ := EVENT_NUNCHUK_MOVE, tv_sec := sec,
                   tv_usec := usec, abs := a, keyCode := c, keyState := st }
      = some { time := eventTime sec usec,
               kind := .nunchukMove (a 0).x (a 0).y (a 1).x (a 1).y }) ∧
    (∀ (k : DrumsKey) (s : KeyState),
        Event.parse { type_ := EVENT_DRUMS_KEY, tv_sec := sec,
                      tv_usec := usec, abs := a, keyCode := k.code,
                      keyState := s.code }
          = some { time := eventTime sec usec, kind := .drumsKey k s }) ∧
    (∀ (k : GuitarKey) (s : KeyState),
        Event.parse { type_ := EVENT_GUITAR_KEY, tv_sec := sec,
                      tv_usec := usec, abs := a, keyCode := k.code,
                      keyState := s.code }
          = some { time := eventTime sec usec, kind := .guitarKey k s }) := by
  refine ⟨?_, rfl, ?_, rfl, rfl, ?_, rfl, rfl, ?_, rfl, ?_, rfl, ?_, ?_⟩
  · intro k s; cases k <;> cases s <;> rfl
  · simp only [Event.parse, IrSource.parse, irSlot_sentinel, MISSING_SOURCE]
    norm_num [EVENT_KEY, EVENT_ACCEL, EVENT_IR]
  · intro k s; cases k <;> cases s <;> rfl
  · intro k s; cases k <;> cases s <;> rfl
  · intro k s; cases k <;> cases s <;> rfl
  · intro k s; cases k <;> cases s <;> rfl
  · intro k s; cases k <;> cases s <;> rfl

/-- When the flag is set and the descriptor is registered,
`EventStream::remove_interest` succeeds and clears the flag. -/
theorem esRemoveInterest_ok (s : ESState) (r : Reactor)
    (hI : s.haveInterest = true) (hreg : s.fd ∈ r.registered) :
    (esRemoveInterest s r).result = .ok () ∧
      (esRemoveInterest s r).state = { s with haveInterest := false } := by
  unfold esRemoveInterest IoBlocker.removeInterest epollCtlDel
  rcases h : lookupFd r.wakers s.fd with _ | w <;> simp [hI, hreg, h]

-- ## Claims C1, C2, C7 (event stream)

/-- C1: when a dispatch returns a removal-tagged (`EVENT_GONE`) record
(and the stream's descriptor is registered, as `try_new` arranged), that
`poll_next` yields end-of-stream after its single dispatch and clears
`have_interest`; every subsequent `poll_next` — under any device
behaviour, reactor state and waker — immediately yields end-of-stream
with the state unchanged and zero `iface_dispatch` calls. -/
theorem event_stream_gone_terminates
    (dev : Nat → DispatchResult) (s : ESState) (r : Reactor) (w : WakerId)
    (g : RawEvent)
    (hI : s.haveInterest = true)
    (hd : dev s.count = .ok g)
    (hg : g.type_ = EVENT_GONE)
    (hreg : s.fd ∈ r.registered) :
    ((esPollNext dev s r w).result = .ready none ∧
      (esPollNext dev s r w).dispatches = 1 ∧
      (esPollNext dev s r w).state.haveInterest = false) ∧
    (∀ (dev' : Nat → DispatchResult) (r' : Reactor) (w' : WakerId),
        esPollNext dev' (esPollNext dev s r w).state r' w' =
          ⟨.ready none, (esPollNext dev s r w).state, r', 0⟩) := by
  have hrem := esRemoveInterest_ok ⟨s.fd, true, s.count + 1⟩ r rfl hreg
  have hmain : esPollNext dev s r w =
      ⟨.ready none, (esRemoveInterest ⟨s.fd, true, s.count + 1⟩ r).state,
        (esRemoveInterest ⟨s.fd, true, s.count + 1⟩ r).reactor, 1⟩ := by
    rw [esPollNext]
    simp only [hI, hd, hg]
    rw [hrem.1]
    simp
  have hflag : (esPollNext dev s r w).state.haveInterest = false := by
    rw [hmain]
    simp only [hrem.2]
  refine ⟨⟨by rw [hmain], by rw [hmain], hflag⟩, ?_⟩
  intro dev' r' w'
  rw [esPollNext]
  simp [hflag]

theorem event_stream_gone_terminates_witness :
    ((ESState.mk 3 true 0).haveInterest = true ∧
        goneDev (ESState.mk 3 true 0).count = .ok goneRaw ∧
        goneRaw.type_ = EVENT_GONE ∧
        (ESState.mk 3 true 0).fd ∈ (Reactor.mk [3] []).registered) ∧
      ((esPollNext goneDev ⟨3, true, 0⟩ ⟨[3], []⟩ 0).result = .ready none ∧
        (esPollNext goneDev ⟨3, true, 0⟩ ⟨[3], []⟩ 0).dispatches = 1 ∧
        (esPollNext goneDev ⟨3, true, 0⟩ ⟨[3], []⟩ 0).state.haveInterest
          = false) :=
  ⟨⟨rfl, rfl, rfl, by decide⟩,
    (event_stream_gone_terminates goneDev ⟨3, true, 0⟩ ⟨[3], []⟩ 0 goneRaw
      rfl rfl rfl (by decide)).1⟩

/-- C7: `EventStream` deregistration is idempotent. Once the interest
has been removed — the flag is down, as both the removal-tagged-record
path and a first `remove_interest` leave it (third conjunct and the C1
theorem) — a further `remove_interest` returns `Ok` without issuing any
`epoll_ctl(EPOLL_CTL_DEL)` call, and a drop of the stream likewise
performs no deregistration and does not panic. -/
theorem event_stream_deregistration_idempotent (s : ESState) (r : Reactor)
    (h : s.haveInterest = false) :
    esRemoveInterest s r = ⟨.ok (), s, r, [], 0⟩ ∧
      esDrop s r = (some (s, r), 0) ∧
      (esRemoveInterest { s with haveInterest := true } r).state.haveInterest
        = false := by
  have h1 : esRemoveInterest s r = ⟨.ok (), s, r, [], 0⟩ := by
    rw [esRemoveInterest]
    simp [h]
  refine ⟨h1, ?_, ?_⟩
  · rw [esDrop, h1]
  · rw [esRemoveInterest]
    rcases hrm : IoBlocker.removeInterest r s.fd EventStream.EPOLL_EVENTS with
      ⟨res, r', wk⟩
    cases res <;> simp [hrm]

theorem event_stream_deregistration_idempotent_witness :
    (ESState.mk 3 false 5).haveInterest = false ∧
      (esRemoveInterest ⟨3, false, 5⟩ ⟨[], []⟩ = ⟨.ok (), ⟨3, false, 5⟩, ⟨[], []⟩, [], 0⟩ ∧
        esDrop ⟨3, false, 5⟩ ⟨[], []⟩ = (some (⟨3, false, 5⟩, ⟨[], []⟩), 0) ∧
        (esRemoveInterest { ESState.mk 3 false 5 with haveInterest := true }
            ⟨[], []⟩).state.haveInterest = false) :=
  ⟨rfl, event_stream_deregistration_idempotent ⟨3, false, 5⟩ ⟨[], []⟩ rfl⟩

/-- C2 (counterexample): dispatching a key record with the unknown code
100 does not surface a decode error to the consumer: `Event::parse`
panics (`parse_key`'s `panic!("unknown key code ..")`), so `poll_next`
aborts instead of yielding an `Err` item. -/
theorem decode_failure_panics_counterexample :
    Event.parse badKeyRaw = none ∧
      (esPollNext (fun _ => .ok badKeyRaw) ⟨3, true, 0⟩ ⟨[3], []⟩ 0).result
        = .panicked := by
  decide

/-- Model of `Event::parse_key` fails (panics) whenever the tag's key
enumeration rejects the code or `KeyState` rejects the state value. -/
theorem parseKeyWith_none {K : Type} (fromCode : Nat → Option K)
    (raw : RawEvent)
    (h : fromCode raw.keyCode = none ∨
      KeyState.fromU32 raw.keyState = none) :
    parseKeyWith fromCode raw = none := by
  rcases hc : fromCode raw.keyCode with _ | k
  · simp [parseKeyWith, hc]
  · rcases h with h | h
    · rw [hc] at h
      simp at h
    · simp [parseKeyWith, hc, h]

/-- C2 (amended): for every raw record carrying one of the six key-kind
tags whose key code or key state value does not map to the expected
enumeration for its tag, decoding panics (`parse_key`'s `panic!`),
aborting the dispatching `poll_next` call, rather than returning an
explicit error result to the consumer. -/
theorem decode_failure_aborts
    (dev : Nat → DispatchResult) (s : ESState) (r : Reactor) (w : WakerId)
    (raw : RawEvent)
    (hI : s.haveInterest = true)
    (hd : dev s.count = .ok raw)
    (ht : isKeyTag raw.type_)
    (hk : keyCodeMaps raw.type_ raw.keyCode = false ∨
      KeyState.fromU32 raw.keyState = none) :
    Event.parse raw = none ∧
      (esPollNext dev s r w).result = .panicked := by
  have hparse : Event.parse raw = none := by
    rcases ht with ht | ht | ht | ht | ht | ht <;> rw [ht] at hk <;>
      simp only [keyCodeMaps, EVENT_KEY, EVENT_PRO_CONTROLLER_KEY,
        EVENT_CLASSIC_CONTROLLER_KEY, EVENT_NUNCHUK_KEY, EVENT_DRUMS_KEY,
        EVENT_GUITAR_KEY] at hk <;>
      norm_num at hk <;> rw [Event.parse] <;> simp only [ht]
    · norm_num [EVENT_KEY, parseKeyWith_none Key.fromU32 raw hk]
    · norm_num [EVENT_KEY, EVENT_ACCEL, EVENT_IR, EVENT_BALANCE_BOARD,
        EVENT_MOTION_PLUS, EVENT_PRO_CONTROLLER_KEY,
        parseKeyWith_none ProControllerKey.fromU32 raw hk]
    · norm_num [EVENT_KEY, EVENT_ACCEL, EVENT_IR, EVENT_BALANCE_BOARD,
        EVENT_MOTION_PLUS, EVENT_PRO_CONTROLLER_KEY,
        EVENT_PRO_CONTROLLER_MOVE, EVENT_WATCH, EVENT_CLASSIC_CONTROLLER_KEY,
        parseKeyWith_none ClassicControllerKey.fromU32 raw hk]
    · norm_num [EVENT_KEY, EVENT_ACCEL, EVENT_IR, EVENT_BALANCE_BOARD,
        EVENT_MOTION_PLUS, EVENT_PRO_CONTROLLER_KEY,
        EVENT_PRO_CONTROLLER_MOVE, EVENT_WATCH, EVENT_CLASSIC_CONTROLLER_KEY,
        EVENT_CLASSIC_CONTROLLER_MOVE, EVENT_NUNCHUK_KEY,
        parseKeyWith_none NunchukKey.fromU32 raw hk]
    · norm_num [EVENT_KEY, EVENT_ACCEL, EVENT_IR, EVENT_BALANCE_BOARD,
        EVENT_MOTION_PLUS, EVENT_PRO_CONTROLLER_KEY,
        EVENT_PRO_CONTROLLER_MOVE, EVENT_WATCH, EVENT_CLASSIC_CONTROLLER_KEY,
        EVENT_CLASSIC_CONTROLLER_MOVE, EVENT_NUNCHUK_KEY, EVENT_NUNCHUK_MOVE,
        EVENT_DRUMS_KEY, parseKeyWith_none DrumsKey.fromU32 raw hk]
    · norm_num [EVENT_KEY, EVENT_ACCEL, EVENT_IR, EVENT_BALANCE_BOARD,
        EVENT_MOTION_PLUS, EVENT_PRO_CONTROLLER_KEY,
        EVENT_PRO_CONTROLLER_MOVE, EVENT_WATCH, EVENT_CLASSIC_CONTROLLER_KEY,
        EVENT_CLASSIC_CONTROLLER_MOVE, EVENT_NUNCHUK_KEY, EVENT_NUNCHUK_MOVE,
        EVENT_DRUMS_KEY, EVENT_DRUMS_MOVE, EVENT_GUITAR_KEY,
        parseKeyWith_none GuitarKey.fromU32 raw hk]
  refine ⟨hparse, ?_⟩
  rw [esPollNext]
  have hne : raw.type_ ≠ EVENT_GONE := by
    rcases ht with ht | ht | ht | ht | ht | ht <;> rw [ht] <;> decide
  simp [hI, hd, hne, hparse]

theorem decode_failure_aborts_witness :
    ((ESState.mk 3 true 0).haveInterest = true ∧
        (fun _ : Nat => DispatchResult.ok badKeyRaw) (ESState.mk 3 true 0).count
          = .ok badKeyRaw ∧
        isKeyTag badKeyRaw.type_ ∧
        (keyCodeMaps badKeyRaw.type_ badKeyRaw.keyCode = false ∨
          KeyState.fromU32 badKeyRaw.keyState = none)) ∧
      (Event.parse badKeyRaw = none ∧
        (esPollNext (fun _ => .ok badKeyRaw) ⟨3, true, 0⟩ ⟨[3], []⟩ 0).result
          = .panicked) :=
  ⟨⟨rfl, rfl, Or.inl rfl, Or.inl rfl⟩,
    decode_failure_aborts (fun _ => .ok badKeyRaw) ⟨3, true, 0⟩ ⟨[3], []⟩ 0
      badKeyRaw rfl rfl (Or.inl rfl) (Or.inl rfl)⟩

-- ## Claims C4, C8 (monitor stream)

/-- C4: on a discovery source yielding `[A, B]` then null, a
non-watching monitor yields exactly `A`, `B`, then end-of-stream (and
keeps yielding end-of-stream); a watching monitor, at the null ending
enumeration, registers read interest for its descriptor and immediately
re-polls within the same `poll_next` call, so the already-pending
hot-plug address `C` is yielded by that very call rather than lost. -/
theorem monitor_stream_enumerate_then_watch
    (A B C : Addr) (f : Nat) (w : WakerId) (r : Reactor)
    (hf : f ∉ r.registered) :
    (monPollNext (enumScript A B) (monNew false f) r w
        = ⟨.ready (some (.ok A)), ⟨none, false, 1⟩, r⟩ ∧
      monPollNext (enumScript A B) ⟨none, false, 1⟩ r w
        = ⟨.ready (some (.ok B)), ⟨none, false, 2⟩, r⟩ ∧
      monPollNext (enumScript A B) ⟨none, false, 2⟩ r w
        = ⟨.ready none, ⟨none, true, 3⟩, r⟩ ∧
      monPollNext (enumScript A B) ⟨none, true, 3⟩ r w
        = ⟨.ready none, ⟨none, true, 3⟩, r⟩) ∧
    (monPollNext (discoverScript A B C) (monNew true f) r w
        = ⟨.ready (some (.ok A)), ⟨some f, false, 1⟩, r⟩ ∧
      monPollNext (discoverScript A B C) ⟨some f, false, 1⟩ r w
        = ⟨.ready (some (.ok B)), ⟨some f, false, 2⟩, r⟩ ∧
      monPollNext (discoverScript A B C) ⟨some f, false, 2⟩ r w
        = ⟨.ready (some (.ok C)), ⟨some f, true, 4⟩,
            { r with registered := f :: r.registered }⟩) := by
  refine ⟨⟨?_, ?_, ?_, ?_⟩, ⟨?_, ?_, ?_⟩⟩ <;>
    simp [monPollNext, monPollEnumerated, monNew, enumScript, discoverScript,
      IoBlocker.addInterest, epollCtlAdd, hf]

theorem monitor_stream_enumerate_then_watch_witness :
    (9 : Nat) ∉ (Reactor.mk [] []).registered ∧
      ((monPollNext (enumScript 100 200) (monNew false 9) ⟨[], []⟩ 0
          = ⟨.ready (some (.ok 100)), ⟨none, false, 1⟩, ⟨[], []⟩⟩ ∧
        monPollNext (enumScript 100 200) ⟨none, false, 1⟩ ⟨[], []⟩ 0
          = ⟨.ready (some (.ok 200)), ⟨none, false, 2⟩, ⟨[], []⟩⟩ ∧
        monPollNext (enumScript 100 200) ⟨none, false, 2⟩ ⟨[], []⟩ 0
          = ⟨.ready none, ⟨none, true, 3⟩, ⟨[], []⟩⟩ ∧
        monPollNext (enumScript 100 200) ⟨none, true, 3⟩ ⟨[], []⟩ 0
          = ⟨.ready none, ⟨none, true, 3⟩, ⟨[], []⟩⟩) ∧
      (monPollNext (discoverScript 100 200 300) (monNew true 9) ⟨[], []⟩ 0
          = ⟨.ready (some (.ok 100)), ⟨some 9, false, 1⟩, ⟨[], []⟩⟩ ∧
        monPollNext (discoverScript 100 200 300) ⟨some 9, false, 1⟩ ⟨[], []⟩ 0
          = ⟨.ready (some (.ok 200)), ⟨some 9, false, 2⟩, ⟨[], []⟩⟩ ∧
        monPollNext (discoverScript 100 200 300) ⟨some 9, false, 2⟩ ⟨[], []⟩ 0
          = ⟨.ready (some (.ok 300)), ⟨some 9, true, 4⟩,
              ⟨[9], []⟩⟩)) :=
  ⟨by decide,
    monitor_stream_enumerate_then_watch 100 200 300 9 0 ⟨[], []⟩ (by decide)⟩

/-- C8 (code at the failing input): a monitor created in discover mode
carries `fd = Some f` from construction onward; dropping it before
enumeration completed — before `f` was ever registered with the reactor —
still issues one `epoll_ctl(EPOLL_CTL_DEL)` deregistration call, which
fails (`ENOENT`), so the `expect` in `Drop` panics. The claim that such
a drop performs no deregistration and does not fail is violated. -/
theorem monitor_drop_before_watching_panics :
    (monNew true 3).fd = some 3 ∧
      monDrop (monNew true 3) ⟨[], []⟩ = (none, 1) := by
  decide

-- ## Claim C10 (connect enables removal watching)

/-- C10: whenever `iface_new` succeeds, `connect` makes exactly one
`iface_watch` call, with `true`, on the freshly opened handle; if that
call fails, `connect` returns the error and no `Device`, and only if it
succeeds does `connect` return a `Device`. -/
theorem device_connect_enables_watch (wld : IfaceWorld)
    (h : wld.newCode = 0) :
    (Device.connect wld).2 = [(wld.handle, true)] ∧
      (wld.watchCode wld.handle true ≠ 0 →
        (Device.connect wld).1 = .error (.fromOs wld.osErr)) ∧
      (wld.watchCode wld.handle true = 0 →
        (Device.connect wld).1 = .ok ⟨wld.handle, false⟩) := by
  by_cases hw : wld.watchCode wld.handle true = 0 <;>
    simp [Device.connect, h, hw]

theorem device_connect_enables_watch_witness :
    (IfaceWorld.mk 0 7 (fun _ _ => 0) 5).newCode = 0 ∧
      ((Device.connect ⟨0, 7, fun _ _ => 0, 5⟩).2 = [(7, true)] ∧
        ((IfaceWorld.mk 0 7 (fun _ _ => 0) 5).watchCode 7 true ≠ 0 →
          (Device.connect ⟨0, 7, fun _ _ => 0, 5⟩).1 = .error (.fromOs 5)) ∧
        ((IfaceWorld.mk 0 7 (fun _ _ => 0) 5).watchCode 7 true = 0 →
          (Device.connect ⟨0, 7, fun _ _ => 0, 5⟩).1 = .ok ⟨7, false⟩)) :=
  ⟨rfl, device_connect_enables_watch ⟨0, 7, fun _ _ => 0, 5⟩ rfl⟩
